import Mathlib

/-!
Verification of the nweb-next indexer ingestion pipeline.

This file gives a shallow embedding, in Lean 4, of the ingestion pipeline of
the `indexer` package (src/indexer/indexer/): the bundle fetcher/verifier
(`ipfs_client.py`), the persistence layer (`database.py`), the ingestion
orchestrator (`indexer.py`) and the event scanner (`blockchain_watcher.py`),
together with theorems settling the specification's claims about them.

Conventions of the embedding:
  * Python `str` values that claims inspect byte-by-byte are `List Char`
    (the scanprint stream); identifier-like strings are Lean `String`.
  * Python `bytes` are `List Nat` with every element < 256.
  * Machine integers are `Nat`/`Int`; SHA-256 words are `Nat` reduced
    modulo 2^32 at every arithmetic step.
  * Fallible operations return `Except`; a Python `try/except` block is an
    explicit `match` on the `Except` value of the guarded operation.
  * External collaborators (web3 RPC, the IPFS HTTP API, ujson/pydantic
    parsing) enter as explicit oracle parameters carrying their results,
    so the control flow of the repository's own code is what is modelled.
-/

/- ---------------------------------------------------------------------
   SHA-256 (hashlib.sha256, FIPS 180-4), used by
   `IPFSClient._compute_scanprint_merkle_root` (ipfs_client.py:158-168).
   Bytes are `Nat` < 256, words are `Nat` < 2^32.
--------------------------------------------------------------------- -/

def w32 : Nat := 4294967296

def rotr32 (n x : Nat) : Nat :=
  ((x >>> n) ||| (x <<< (32 - n))) % w32

def sha256K : List Nat :=
  [1116352408, 1899447441, 3049323471, 3921009573, 961987163,
   1508970993, 2453635748, 2870763221, 3624381080, 310598401,
   607225278, 1426881987, 1925078388, 2162078206, 2614888103,
   3248222580, 3835390401, 4022224774, 264347078, 604807628,
   770255983, 1249150122, 1555081692, 1996064986, 2554220882,
   2821834349, 2952996808, 3210313671, 3336571891, 3584528711,
   113926993, 338241895, 666307205, 773529912, 1294757372,
   1396182291, 1695183700, 1986661051, 2177026350, 2456956037,
   2730485921, 2820302411, 3259730800, 3345764771, 3516065817,
   3600352804, 4094571909, 275423344, 430227734, 506948616,
   659060556, 883997877, 958139571, 1322822218, 1537002063,
   1747873779, 1955562222, 2024104815, 2227730452, 2361852424,
   2428436474, 2756734187, 3204031479, 3329325298]

def sha256H0 : List Nat :=
  [1779033703, 3144134277, 1013904242, 2773480762,
   1359893119, 2600822924, 528734635, 1541459225]

def smallSigma0 (x : Nat) : Nat := rotr32 7 x ^^^ rotr32 18 x ^^^ (x >>> 3)

def smallSigma1 (x : Nat) : Nat := rotr32 17 x ^^^ rotr32 19 x ^^^ (x >>> 10)

def bigSigma0 (x : Nat) : Nat := rotr32 2 x ^^^ rotr32 13 x ^^^ rotr32 22 x

def bigSigma1 (x : Nat) : Nat := rotr32 6 x ^^^ rotr32 11 x ^^^ rotr32 25 x

def chWord (x y z : Nat) : Nat := (x &&& y) ^^^ ((x ^^^ 0xffffffff) &&& z)

def majWord (x y z : Nat) : Nat := (x &&& y) ^^^ (x &&& z) ^^^ (y &&& z)

/-- Big-endian 8-byte encoding of a length (bit count < 2^64). -/
def be64 (n : Nat) : List Nat :=
  (List.range 8).map (fun i => (n >>> (8 * (7 - i))) % 256)

/-- SHA-256 message padding: 0x80, zeros, then the 64-bit big-endian
bit length, bringing the total length to a multiple of 64 bytes. -/
def sha256Pad (msg : List Nat) : List Nat :=
  let len := msg.length
  let zeros := (119 - len % 64) % 64
  msg ++ 0x80 :: List.replicate zeros 0 ++ be64 (8 * len)

/-- Big-endian 32-bit words from a byte list (length a multiple of 4). -/
def bytesToWords : List Nat → List Nat
| b0 :: b1 :: b2 :: b3 :: rest =>
    (b0 * 16777216 + b1 * 65536 + b2 * 256 + b3) :: bytesToWords rest
| _ => []

/-- Extend a 16-word block schedule by `n` further words. -/
def sha256Extend (w : List Nat) : Nat → List Nat
| 0 => w
| n + 1 =>
    let w' := sha256Extend w n
    let i := w'.length
    w' ++ [(smallSigma1 (w'.getD (i - 2) 0) + w'.getD (i - 7) 0 +
            smallSigma0 (w'.getD (i - 15) 0) + w'.getD (i - 16) 0) % w32]

def sha256Schedule (w16 : List Nat) : List Nat := sha256Extend w16 48

/-- One round of the SHA-256 compression function. -/
def sha256Round (st : List Nat) (kw : Nat × Nat) : List Nat :=
  match st with
  | [a, b, c, d, e, f, g, h] =>
      let t1 := (h + bigSigma1 e + chWord e f g + kw.1 + kw.2) % w32
      let t2 := (bigSigma0 a + majWord a b c) % w32
      [(t1 + t2) % w32, a, b, c, (d + t1) % w32, e, f, g]
  | other => other

/-- Compress one 64-byte block into the running hash state. -/
def sha256Compress (hs : List Nat) (block : List Nat) : List Nat :=
  let w := sha256Schedule (bytesToWords block)
  let final := (sha256K.zip w).foldl sha256Round hs
  (hs.zip final).map (fun p => (p.1 + p.2) % w32)

/-- Split into 64-byte chunks; fuel-based so the kernel can reduce it. -/
def chunk64Go : Nat → List Nat → List (List Nat)
| 0, _ => []
| _, [] => []
| fuel + 1, l => l.take 64 :: chunk64Go fuel (l.drop 64)

def chunk64 (l : List Nat) : List (List Nat) := chunk64Go l.length l

/-- Big-endian bytes of one 32-bit word. -/
def wordBytes (n : Nat) : List Nat :=
  [(n >>> 24) % 256, (n >>> 16) % 256, (n >>> 8) % 256, n % 256]

/-- SHA-256 digest (32 bytes) of a byte string. -/
def sha256 (msg : List Nat) : List Nat :=
  ((chunk64 (sha256Pad msg)).foldl sha256Compress sha256H0).flatMap wordBytes

def hexDigitChar (n : Nat) : Char :=
  if n < 10 then Char.ofNat (48 + n) else Char.ofNat (87 + n)

def byteToHex (b : Nat) : List Char := [hexDigitChar (b / 16), hexDigitChar (b % 16)]

/-- Lowercase hex rendering of a byte list (hashlib `hexdigest`). -/
def hexOfBytes (bs : List Nat) : String := ⟨bs.flatMap byteToHex⟩

/- ---------------------------------------------------------------------
   Python `str` primitives on `List Char`, as used by
   `_compute_scanprint_merkle_root` and `fetch_bundle`.
--------------------------------------------------------------------- -/

/-- Python `str.isspace` characters relevant to `str.strip()`. -/
def pyIsSpace (c : Char) : Bool :=
  c = ' ' ∨ c = '\t' ∨ c = '\n' ∨ c = '\r' ∨ c = '\x0b' ∨ c = '\x0c'

def stripLeftL : List Char → List Char
| [] => []
| c :: cs => if pyIsSpace c then stripLeftL cs else c :: cs

def stripRightL (l : List Char) : List Char := (stripLeftL l.reverse).reverse

/-- Python `str.strip()` with no argument: strip whitespace on both ends. -/
def pyStrip (l : List Char) : List Char := stripRightL (stripLeftL l)

/-- Python `s.split("\n")`: every occurrence splits, empty pieces kept,
and the empty string splits to `[""]`. -/
def splitNl : List Char → List (List Char)
| [] => [[]]
| c :: cs =>
    if c = '\n' then [] :: splitNl cs
    else
      match splitNl cs with
      | t :: ts => (c :: t) :: ts
      | [] => [[c]]

/-- Python `"\n".join(lines)`. -/
def joinNl (lines : List (List Char)) : List Char := List.intercalate ['\n'] lines

/-- UTF-8 encoding of one character (python `str.encode("utf-8")`). -/
def utf8Char (c : Char) : List Nat :=
  let n := c.toNat
  if n < 0x80 then [n]
  else if n < 0x800 then [0xc0 + n / 64, 0x80 + n % 64]
  else if n < 0x10000 then
    [0xe0 + n / 4096, 0x80 + (n / 64) % 64, 0x80 + n % 64]
  else
    [0xf0 + n / 262144, 0x80 + (n / 4096) % 64, 0x80 + (n / 64) % 64, 0x80 + n % 64]

def utf8Encode (l : List Char) : List Nat := l.flatMap utf8Char

/- ---------------------------------------------------------------------
   IPFSClient._compute_scanprint_merkle_root (ipfs_client.py:158-168):
     lines = [line.strip() for line in scanprint_data.strip().split("\n")
              if line.strip()]
     if not lines: return ""
     canonical_data = "\n".join(lines).encode("utf-8")
     return f"0x{hashlib.sha256(canonical_data).hexdigest()}"
--------------------------------------------------------------------- -/

def compute_scanprint_merkle_root (scanprint_data : List Char) : String :=
  let lines := ((splitNl (pyStrip scanprint_data)).map pyStrip).filter
    (fun l => l ≠ [])
  if lines = [] then ""
  else "0x" ++ hexOfBytes (sha256 (utf8Encode (joinNl lines)))

/- ---------------------------------------------------------------------
   Data model (models.py).  Field names follow the source; `namespace`
   is a Lean keyword and is rendered `nspace`.
--------------------------------------------------------------------- -/

/-- models.ScanRecord (pydantic). -/
structure ScanRecord where
  timestamp : Int
  ip : String
  port : Int
  protocol : String
  state : String
  service : Option String := none
  product : Option String := none
  version : Option String := none
  banner_sha256 : Option String := none
  cert_fpr : Option String := none
  tls_ja3 : Option String := none
  latency_ms : Option Int := none
  tool : String
  tool_version : String
  options : String
  vantage : String
deriving DecidableEq, Repr

/-- The `scanprint` entry of a manifest: a python dict of which
`fetch_bundle` reads the keys "path" and "merkleRoot". -/
structure ScanprintDesc where
  path : String
  merkleRoot : Option String := none
deriving DecidableEq, Repr

/-- models.BundleManifest (pydantic).  `artifacts` is a list of dicts of
which only the "path" key is ever read. -/
structure BundleManifest where
  schema : String
  nspace : String
  dataset_type : String
  scanprint : ScanprintDesc
  artifacts : List String := []
  target_spec_cid : String
  tool : String
  tool_version : String
  vantage : String
  started_at : Int
  finished_at : Int
  notes : Option String := none
deriving DecidableEq, Repr

/-- models.Submission (pydantic). -/
structure Submission where
  uid : String
  submitter : String
  job_id : String
  nspace : String
  dataset_type : String
  cid : String
  merkle_root : String
  target_spec_cid : String
  started_at : Int
  finished_at : Int
  tool : String
  version : String
  vantage : String
  manifest_sha256 : String
  extra : List Nat := []
  timestamp : Int
  processed_at : Option Nat := none
  status : String := "pending"
  error_message : Option String := none
  manifest : Option BundleManifest := none
  records : List ScanRecord := []
deriving DecidableEq, Repr

/- ---------------------------------------------------------------------
   Persistence layer (database.py).  `datetime` values are `Nat`.
   The autoincrement `id` of RecordModel and the `created_at` column
   (database-side defaults, never read by the pipeline) are omitted.
--------------------------------------------------------------------- -/

/-- database.SubmissionModel: the persisted columns of a submission. -/
structure SubmissionModel where
  uid : String
  submitter : String
  job_id : String
  nspace : String
  dataset_type : String
  cid : String
  merkle_root : String
  target_spec_cid : String
  started_at : Int
  finished_at : Int
  tool : String
  version : String
  vantage : String
  manifest_sha256 : String
  extra : List Nat
  timestamp : Int
  processed_at : Option Nat
  status : String
  error_message : Option String
deriving DecidableEq, Repr

/-- database.IndexerStateModel: the singleton checkpoint row. -/
structure IndexerStateModel where
  last_block : Nat := 0
  last_attestation_uid : String := ""
  processed_count : Nat := 0
  error_count : Nat := 0
  updated_at : Nat := 0
deriving DecidableEq, Repr

/-- The durable store: the three collections owned by the indexer.
`subs` is keyed by uid (primary key), `recs` pairs each record with its
`submission_uid` foreign key, `state` is the optional singleton row. -/
structure Store where
  subs : List (String × SubmissionModel) := []
  recs : List (String × ScanRecord) := []
  state : Option IndexerStateModel := none
deriving DecidableEq, Repr

def emptyStore : Store := {}

/-- Primary-key lookup in the submissions collection. -/
def lookupUid (u : String) : List (String × SubmissionModel) → Option SubmissionModel
| [] => none
| (k, r) :: rest => if k = u then some r else lookupUid u rest

/-- `session.merge` on SubmissionModel: replace the row with the same
primary key, or insert a fresh row (upsert). -/
def upsertSub (row : SubmissionModel) : List (String × SubmissionModel) →
    List (String × SubmissionModel)
| [] => [(row.uid, row)]
| (k, r) :: rest =>
    if k = row.uid then (k, row) :: rest else (k, r) :: upsertSub row rest

/-- Conversion performed inside `IndexerService._save_submission`
(indexer.py:185-205): copy the column fields of the in-memory
Submission into a SubmissionModel. -/
def toModel (s : Submission) : SubmissionModel :=
  { uid := s.uid, submitter := s.submitter, job_id := s.job_id,
    nspace := s.nspace, dataset_type := s.dataset_type, cid := s.cid,
    merkle_root := s.merkle_root, target_spec_cid := s.target_spec_cid,
    started_at := s.started_at, finished_at := s.finished_at,
    tool := s.tool, version := s.version, vantage := s.vantage,
    manifest_sha256 := s.manifest_sha256, extra := s.extra,
    timestamp := s.timestamp, processed_at := s.processed_at,
    status := s.status, error_message := s.error_message }

/-- IndexerService._save_submission (indexer.py:180-213): build the row
and `session.merge` it (upsert by primary key). -/
def save_submission (st : Store) (s : Submission) : Store :=
  { st with subs := upsertSub (toModel s) st.subs }

/-- IndexerService._save_records (indexer.py:215-245): `session.add` one
RecordModel per parsed record.  Note: rows are appended; no prior rows
for the same submission_uid are removed. -/
def save_records (st : Store) (s : Submission) : Store :=
  { st with recs := st.recs ++ s.records.map (fun r => (s.uid, r)) }

/-- The attribute relevant to database.py:147: SQLAlchemy's AsyncSession
does not expose the legacy `.query` API, so `session.query(...)` on an
AsyncSession raises AttributeError. -/
def asyncSessionHasQuery : Bool := false

/-- DatabaseManager.get_or_create_state (database.py:143-157): evaluates
`session.query(IndexerStateModel).limit(1)` on an AsyncSession.  Since
AsyncSession has no `query` attribute, this raises AttributeError before
any read or write (modelled `none`); only a counterfactual success would
get (or create and return) the singleton state row. -/
def get_or_create_state (st : Store) : Option IndexerStateModel :=
  if asyncSessionHasQuery then some (st.state.getD {}) else none

/-- DatabaseManager.update_state (database.py:159-166) as invoked from
`_handle_submission` (indexer.py:172-175), with the keyword arguments
`last_attestation_uid` and `processed_count`.  `get_or_create_state`
raises, so every call raises before any column is written (`none`); the
`some` branch is the dead intended path -- which would anyway flush
nothing, because the mutated `state` object belongs to a different,
already-closed session than the one whose `commit` runs. -/
def update_state (uid : String) (count : Nat) (now : Nat) (st : Store) :
    Option Store :=
  match get_or_create_state st with
  | none => none
  | some s0 =>
      some { st with state := some { s0 with last_attestation_uid := uid,
                                             processed_count := count,
                                             updated_at := now } }

/- ---------------------------------------------------------------------
   Bundle fetcher/verifier: IPFSClient.fetch_bundle (ipfs_client.py:98-156).
--------------------------------------------------------------------- -/

/-- The distinguishable failure reasons of `fetch_bundle`.  In the source
these are the distinct exception messages raised at each step; the
transport constructor carries exceptions re-raised unwrapped (from
`stat`/`cat` outside the inner try blocks). -/
inductive FetchErr where
| notDirectory
| manifestFetch (e : String)
| scanprintFetch (e : String)
| merkleMismatch (expected actual : String)
| transport (e : String)
deriving DecidableEq, Repr

/-- The exception message attached to each failure, as formatted by
ipfs_client.py lines 104, 115, 132 and 139. -/
def renderFetchErr : FetchErr → String
| .notDirectory => "Bundle CID is not a directory"
| .manifestFetch e => "Failed to fetch manifest: " ++ e
| .scanprintFetch e => "Failed to fetch scanprint: " ++ e
| .merkleMismatch expected actual =>
    "Merkle root mismatch: expected " ++ expected ++ ", got " ++ actual
| .transport e => e

/-- The value assembled by a successful `fetch_bundle`. -/
structure Bundle where
  manifest : BundleManifest
  records : List ScanRecord
  nmap_xml : Option (List Char) := none
deriving DecidableEq, Repr

/-- The external collaborators of one `fetch_bundle` call, as result
oracles: the IPFS `stat` of the bundle CID (its NumLinks, or a transport
error), the fetched-and-parsed manifest document, the `cat` of a path
under the CID, and the ujson+pydantic parse of one JSONL line. -/
structure IpfsEnv where
  statNumLinks : Except String Nat
  manifestDoc : Except String BundleManifest
  catPath : String → Except String (List Char)
  parseRec : List Char → Except String ScanRecord

/-- JSONL parsing loop of fetch_bundle (ipfs_client.py:124-129): for
every line of `scanprint_data.strip().split("\n")`, skip empty lines and
parse the rest; the first malformed line fails the whole bundle. -/
def parseJsonl (parseRec : List Char → Except String ScanRecord) :
    List (List Char) → Except String (List ScanRecord)
| [] => .ok []
| l :: ls =>
    if l = [] then parseJsonl parseRec ls
    else
      match parseRec l with
      | .error e => .error e
      | .ok r =>
          match parseJsonl parseRec ls with
          | .error e => .error e
          | .ok rs => .ok (r :: rs)

/-- Best-effort fetch of a raw `nmap.xml` artifact
(ipfs_client.py:142-150): first artifact path ending in "nmap.xml" is
fetched; any failure is logged and ignored. -/
def fetchNmapXml (env : IpfsEnv) : List String → Option (List Char)
| [] => none
| p :: ps =>
    if p.endsWith "nmap.xml" then
      match env.catPath p with
      | .ok xml => some xml
      | .error _ => none
    else fetchNmapXml env ps

/-- IPFSClient.fetch_bundle (ipfs_client.py:98-156).  Steps in source
order: stat the CID (no child links fails as "not a directory"); fetch
and parse manifest.json (fatal on failure); cat the manifest's scanprint
path and parse it as JSONL (fatal on failure); if the manifest declares
a (truthy, i.e. nonempty) merkleRoot, recompute the digest of the raw
scanprint text and compare, a difference being the named
merkle-mismatch failure; finally fetch any nmap.xml artifact
best-effort. -/
def fetch_bundle (env : IpfsEnv) : Except FetchErr Bundle :=
  match env.statNumLinks with
  | .error e => .error (.transport e)
  | .ok numLinks =>
    if numLinks = 0 then .error .notDirectory
    else
      match env.manifestDoc with
      | .error e => .error (.manifestFetch e)
      | .ok m =>
        match env.catPath m.scanprint.path with
        | .error e => .error (.scanprintFetch e)
        | .ok scanprint_data =>
          match parseJsonl env.parseRec (splitNl (pyStrip scanprint_data)) with
          | .error e => .error (.scanprintFetch e)
          | .ok records =>
            if m.scanprint.merkleRoot.getD "" ≠ "" then
              let expected := m.scanprint.merkleRoot.getD ""
              let actual := compute_scanprint_merkle_root scanprint_data
              if expected ≠ actual then .error (.merkleMismatch expected actual)
              else .ok { manifest := m, records := records,
                         nmap_xml := fetchNmapXml env m.artifacts }
            else .ok { manifest := m, records := records,
                       nmap_xml := fetchNmapXml env m.artifacts }

/- ---------------------------------------------------------------------
   Ingestion orchestrator: IndexerService (indexer.py).
--------------------------------------------------------------------- -/

/-- The in-process state of IndexerService: the durable store plus the
in-memory deduplication set `processed_uids` (a python set, modelled as
a duplicate-free list inserted into only when absent). -/
structure SvcState where
  store : Store := {}
  processedUids : List String := []
deriving DecidableEq, Repr

def initSvc : SvcState := {}

/-- Python `set.add`. -/
def insertUid (u : String) (l : List String) : List String :=
  if u ∈ l then l else u :: l

/-- IndexerService._load_processed_uids (indexer.py:108-120): SELECT
SubmissionModel.uid with no filter -- every identifier present in the
store, whatever its status. -/
def load_processed_uids (st : Store) : List String := st.subs.map Prod.fst

/-- The submission value as it stands after the fetch try/except block
of `_handle_submission` (indexer.py:132-162): status "processing" is
set first; with a (truthy) CID the fetch result either completes the
submission (manifest, records, status, processed_at) or fails it with
the exception text; without a CID it fails with "No CID provided". -/
def processedSub (fetch : String → Except FetchErr Bundle) (now : Nat)
    (ev : Submission) : Submission :=
  let sub1 := { ev with status := "processing" }
  if ev.cid ≠ "" then
    match fetch ev.cid with
    | .ok b =>
        { sub1 with manifest := some b.manifest, records := b.records,
                    status := "completed", processed_at := some now }
    | .error e =>
        { sub1 with status := "failed",
                    error_message := some (renderFetchErr e) }
  else
    { sub1 with status := "failed", error_message := some "No CID provided" }

/-- The store after the second `_save_submission` of one handler run
(indexer.py:132-165): persist the "processing" row, save the individual
records when (and only when) the bundle completed, then persist the
final row. -/
def storeAfterSaves (fetch : String → Except FetchErr Bundle) (now : Nat)
    (st : Store) (ev : Submission) : Store :=
  let st1 := save_submission st { ev with status := "processing" }
  let sub2 := processedSub fetch now ev
  let st2 := if sub2.status = "completed" then save_records st1 sub2 else st1
  save_submission st2 sub2

/-- IndexerService._handle_submission (indexer.py:122-178), completed
without interruption: skip an already-processed identifier, drive the
submission through the saves, mark the identifier processed
(indexer.py:168), then attempt the checkpoint update with
`last_attestation_uid` and the new `processed_count` (the python set's
size after the add).  `update_state` always raises (see its definition)
and the exception is swallowed by the blanket except at indexer.py:177,
so the store writes and the in-memory add persist while the checkpoint
row is left untouched. -/
def handle_submission (fetch : String → Except FetchErr Bundle) (now : Nat)
    (s : SvcState) (ev : Submission) : SvcState :=
  if ev.uid ∈ s.processedUids then s
  else
    let store2 := storeAfterSaves fetch now s.store ev
    let uids2 := insertUid ev.uid s.processedUids
    match update_state ev.uid uids2.length now store2 with
    | some store3 => { store := store3, processedUids := uids2 }
    | none => { store := store2, processedUids := uids2 }

/-- Interruption points of one `_handle_submission` run: the process may
die (or a persistence call may raise, abandoning the rest of the
handler) before the first save, between the first save and the final
save (`afterSave1`, and `afterRecords` once records were added), after
the final save but before the dedup/checkpoint bookkeeping, or nowhere
(`complete`). -/
inductive CrashPoint where
| beforeSave1
| afterSave1
| afterRecords
| afterSave2
| complete
deriving DecidableEq, Repr

/-- `_handle_submission` cut off at a given interruption point.  The
dedup check always runs first (indexer.py:126); every store write that
precedes the interruption point is kept, everything after it is lost. -/
def handleAt (fetch : String → Except FetchErr Bundle) (now : Nat)
    (cp : CrashPoint) (s : SvcState) (ev : Submission) : SvcState :=
  if ev.uid ∈ s.processedUids then s
  else
    match cp with
    | .beforeSave1 => s
    | .afterSave1 =>
        { s with store := save_submission s.store { ev with status := "processing" } }
    | .afterRecords =>
        let st1 := save_submission s.store { ev with status := "processing" }
        let sub2 := processedSub fetch now ev
        { s with store := if sub2.status = "completed" then save_records st1 sub2 else st1 }
    | .afterSave2 =>
        { s with store := storeAfterSaves fetch now s.store ev }
    | .complete => handle_submission fetch now s ev

/-- One observable step of the deployment: an event delivery (possibly
interrupted) or a process restart, which reloads the deduplication set
from the store via `_load_processed_uids` (indexer.py:44). -/
inductive Step where
| deliver (ev : Submission) (cp : CrashPoint)
| restart
deriving Repr

def applyStep (fetch : String → Except FetchErr Bundle) (now : Nat)
    (s : SvcState) : Step → SvcState
| .deliver ev cp => handleAt fetch now cp s ev
| .restart => { store := s.store, processedUids := load_processed_uids s.store }

def runSteps (fetch : String → Except FetchErr Bundle) (now : Nat)
    (s : SvcState) : List Step → SvcState
| [] => s
| stp :: rest => runSteps fetch now (applyStep fetch now s stp) rest

/-- A terminal status of the per-submission state machine. -/
def terminalStatus (s : String) : Prop := s = "completed" ∨ s = "failed"

/- ---------------------------------------------------------------------
   Event scanner: BlockchainWatcher (blockchain_watcher.py).
--------------------------------------------------------------------- -/

/-- A raw AttestationMade event as seen by `_get_events_in_range`:
only the hex-rendered `args.uid` is inspected for deduplication; the
indexed attester/subject ride along. -/
structure RawEvent where
  uid : String
  attester : String
  subject : String
deriving DecidableEq, Repr

/-- A retrieval failure: web3's BlockNotFound, or anything else. -/
inductive RangeErr where
| blockNotFound
| other (msg : String)
deriving DecidableEq, Repr

/-- The merge loop of `_get_events_in_range` (blockchain_watcher.py:
115-125): union of the filter events and the range-query logs, first
occurrence of each uid winning. -/
def dedupByUid (evs : List RawEvent) : List RawEvent :=
  (evs.foldl
    (fun acc e =>
      if (acc.2.map RawEvent.uid).contains e.uid then acc
      else (acc.1, acc.2 ++ [e]))
    ((), [])).2

/-- BlockchainWatcher._get_events_in_range (blockchain_watcher.py:
96-132).  The two retrieval paths enter as their `Except` results.  The
`except BlockNotFound` arm returns the empty list; the catch-all
`except Exception` arm ALSO returns the empty list (lines 130-132) --
no retrieval error ever reaches the caller, hence the `.ok` in every
arm of the translation. -/
def get_events_in_range (filterRes logsRes : Except RangeErr (List RawEvent)) :
    Except RangeErr (List RawEvent) :=
  match filterRes, logsRes with
  | .error .blockNotFound, _ => .ok []
  | .error (.other _), _ => .ok []
  | .ok _, .error .blockNotFound => .ok []
  | .ok _, .error (.other _) => .ok []
  | .ok evs, .ok logs => .ok (dedupByUid (evs ++ logs))

/-- The cursor update of one iteration of `watch_events`
(blockchain_watcher.py:63-79): when `current ≤ latest` the window
`[current, min(current + batch - 1, latest)]` is scanned and the cursor
becomes `min(current + batch, latest + 1)`; otherwise nothing happens. -/
def watchCursorStep (current batch latest : Nat) : Nat :=
  if current ≤ latest then min (current + batch) (latest + 1) else current

/-- The inclusive upper bound of the window scanned in that iteration
(blockchain_watcher.py:72). -/
def scanWindowUpper (current batch latest : Nat) : Nat :=
  min (current + batch - 1) latest

/- ---------------------------------------------------------------------
   Statistics: IndexerService.get_stats (indexer.py:247-281).
--------------------------------------------------------------------- -/

/-- The dictionary `get_stats` is written to produce. -/
structure IndexerStats where
  submissions : List (String × Nat)
  total_records : Nat
  last_block : Nat
  processed_count : Nat
  error_count : Nat
  last_updated : Option Nat
deriving DecidableEq, Repr

/-- First-occurrence deduplication of a list of statuses (the GROUP BY
key set). -/
def firstDedup : List String → List String
| [] => []
| s :: rest => if s ∈ rest then
    (if s ∈ firstDedup rest then firstDedup rest else s :: firstDedup rest)
  else s :: firstDedup rest

/-- The statistics the body of `get_stats` computes from the store:
per-status submission counts (GROUP BY status), the total record count,
and the checkpoint row's fields (zeros/None when the row is absent). -/
def statsOf (st : Store) : IndexerStats :=
  let statuses := st.subs.map (fun p => p.2.status)
  { submissions := (firstDedup statuses).map
      (fun s => (s, statuses.countP (fun t => t = s))),
    total_records := st.recs.length,
    last_block := (st.state.map (fun s => s.last_block)).getD 0,
    processed_count := (st.state.map (fun s => s.processed_count)).getD 0,
    error_count := (st.state.map (fun s => s.error_count)).getD 0,
    last_updated := st.state.map (fun s => s.updated_at) }

/-- The names imported from sqlalchemy at indexer.py line 6.  `func`,
used by `get_stats` at lines 253 and 260, is not among them and is
bound nowhere else in the module. -/
def indexerSqlalchemyImports : List String := ["select"]

/-- IndexerService.get_stats (indexer.py:247-281): the first query
expression evaluates `func.count(...)`; since `func` is an unbound name
in indexer.py, this raises NameError before any result is produced, the
blanket `except Exception` at line 279 swallows it, and the empty dict
(here `none`) is returned. -/
def get_stats (st : Store) : Option IndexerStats :=
  if "func" ∈ indexerSqlalchemyImports then some (statsOf st) else none

/- ---------------------------------------------------------------------
   Derived observations on the store, used to state the claims.
--------------------------------------------------------------------- -/

/-- Number of submission rows carrying a given primary key. -/
def countUid (u : String) (l : List (String × SubmissionModel)) : Nat :=
  l.countP (fun p => p.1 = u)

/-- The scan records persisted for a given submission identifier, in
insertion order. -/
def recsFor (u : String) (recs : List (String × ScanRecord)) : List ScanRecord :=
  (recs.filter (fun p => p.1 = u)).map Prod.snd

/-- A deployment step free of the mid-persistence interruption windows:
the process may stop before the first save or after the final save, but
not between them. -/
def allowedStep : Step → Prop
| .deliver _ cp => cp ≠ CrashPoint.afterSave1 ∧ cp ≠ CrashPoint.afterRecords
| .restart => True

/-- The drain invariant: every stored submission row is terminal, and
every identifier in the deduplication set has a stored row. -/
def SvcInv (s : SvcState) : Prop :=
  (∀ u r, lookupUid u s.store.subs = some r → terminalStatus r.status)
  ∧ (∀ u, u ∈ s.processedUids → ∃ r, lookupUid u s.store.subs = some r)

/- ---------------------------------------------------------------------
   Concrete sample data for witnesses and counterexamples.
--------------------------------------------------------------------- -/

/-- A fetch oracle whose node is unreachable. -/
def fetchDown : String → Except FetchErr Bundle :=
  fun _ => .error (.transport "node unreachable")

def baseRec : ScanRecord :=
  { timestamp := 1693526400, ip := "203.0.113.42", port := 443,
    protocol := "tcp", state := "open", service := some "https",
    tool := "nmap", tool_version := "7.95", options := "top-1000",
    vantage := "AS1234/us-west-2" }

def baseManifest : BundleManifest :=
  { schema := "nweb-bundle-1", nspace := "nweb.io", dataset_type := "nmap",
    scanprint := { path := "scanprint.jsonl" },
    target_spec_cid := "bafytarget", tool := "nmap", tool_version := "7.95",
    vantage := "AS1234/us-west-2", started_at := 1693526400,
    finished_at := 1693529999 }

def baseSub : Submission :=
  { uid := "0x01", submitter := "0xAttester", job_id := "0xjob",
    nspace := "nweb.io", dataset_type := "nmap", cid := "bafybundle",
    merkle_root := "0xroot", target_spec_cid := "bafytarget",
    started_at := 1693526400, finished_at := 1693529999, tool := "nmap",
    version := "7.95", vantage := "AS1234/us-west-2",
    manifest_sha256 := "abc123", timestamp := 1693526400 }

def cexSubC1 : Submission := { baseSub with uid := "0xc1", cid := "bafyc1" }

def wSubC1 : Submission := { baseSub with uid := "0xw1", cid := "bafyw1" }

def wSubC2 : Submission := { baseSub with uid := "0xw2", cid := "bafyw2" }

def wBundleC2 : Bundle := { manifest := baseManifest, records := [baseRec] }

/-- A fetch oracle that returns one well-formed single-record bundle. -/
def fetchOkC2 : String → Except FetchErr Bundle := fun _ => .ok wBundleC2

def cexSubC3 : Submission :=
  { baseSub with uid := "0xc3", records := [baseRec] }

def wSubC3 : Submission := { baseSub with uid := "0xw3", records := [baseRec] }

def wManifestC4 : BundleManifest :=
  { baseManifest with scanprint := { path := "scanprint.jsonl",
                                     merkleRoot := some "0xdead" } }

/-- An IPFS environment whose bundle directory exists, whose manifest
declares the attested root "0xdead", and whose scanprint stream is
empty (so its recomputed digest is "", differing from "0xdead"). -/
def wEnvC4 : IpfsEnv :=
  { statNumLinks := .ok 2, manifestDoc := .ok wManifestC4,
    catPath := fun _ => .ok [], parseRec := fun _ => .error "unused" }

def wSubC4 : Submission := { baseSub with uid := "0xw4", cid := "bafyw4" }

def cexSubC6 : Submission := { baseSub with uid := "0xc6", cid := "" }

/-- A service whose checkpoint row already records position 7. -/
def cexSvcC6 : SvcState :=
  { store := { state := some { last_block := 7 } } }

def cexRowC9 : SubmissionModel := toModel { baseSub with status := "completed" }

/-- A store holding one completed submission, two of its records and a
checkpoint row -- on which the intended statistics are plainly
non-empty. -/
def cexStoreC9 : Store :=
  { subs := [("0x01", cexRowC9)],
    recs := [("0x01", baseRec), ("0x01", baseRec)],
    state := some { last_block := 12, last_attestation_uid := "0x01",
                    processed_count := 1, updated_at := 99 } }

def cexRowC10 : SubmissionModel :=
  toModel { baseSub with uid := "0xaa", status := "processing" }

/-- A store holding a single row stranded in status "processing". -/
def cexStoreC10 : Store := { subs := [("0xaa", cexRowC10)] }

def cexSubC10 : Submission := { baseSub with uid := "0xaa" }

/- ---------------------------------------------------------------------
   Helper lemmas.
--------------------------------------------------------------------- -/

theorem lookupUid_upsert (row : SubmissionModel)
    (l : List (String × SubmissionModel)) (u : String) :
    lookupUid u (upsertSub row l) =
      if row.uid = u then some row else lookupUid u l := by
  induction l with
  | nil => simp [upsertSub, lookupUid]
  | cons p rest ih =>
      obtain ⟨k, r⟩ := p
      by_cases hk : k = row.uid
      · simp only [upsertSub, if_pos hk, lookupUid, hk]
        by_cases hru : row.uid = u
        · simp [hru]
        · simp [hru]
      · simp only [upsertSub, if_neg hk, lookupUid, ih]
        by_cases hku : k = u
        · have hru : ¬row.uid = u := fun hh => hk (hku.trans hh.symm)
          simp [hku, hru]
        · simp [hku]

theorem countUid_zero_of_lookup_none (u : String)
    (l : List (String × SubmissionModel)) (h : lookupUid u l = none) :
    countUid u l = 0 := by
  induction l with
  | nil => rfl
  | cons p rest ih =>
      obtain ⟨k, r⟩ := p
      by_cases hk : k = u
      · simp [lookupUid, hk] at h
      · simp only [lookupUid, if_neg hk] at h
        simpa [countUid, List.countP_cons, hk] using ih h

theorem countUid_upsert (row : SubmissionModel)
    (l : List (String × SubmissionModel)) (u : String) :
    countUid u (upsertSub row l) =
      if row.uid = u then (if countUid u l = 0 then 1 else countUid u l)
      else countUid u l := by
  induction l with
  | nil =>
      by_cases h : row.uid = u <;>
        simp [upsertSub, countUid, List.countP_cons, h]
  | cons p rest ih =>
      obtain ⟨k, r⟩ := p
      by_cases hk : k = row.uid
      · by_cases hru : row.uid = u
        · have hku : k = u := hk.trans hru
          simp [upsertSub, if_pos hk, countUid, List.countP_cons, hku, hru]
        · have hku : ¬k = u := fun hh => hru (hk.symm.trans hh)
          simp [upsertSub, if_pos hk, countUid, List.countP_cons, hku, hru]
      · by_cases hru : row.uid = u
        · have hku : ¬k = u := fun hh => hk (hh.trans hru.symm)
          simp [upsertSub, if_neg hk, countUid, List.countP_cons,
            hku, hru] at ih ⊢
          have hc : List.countP (fun p => decide (p.1 = u)) ((k, r) :: rest)
              = List.countP (fun p => decide (p.1 = u)) rest := by
            simp [List.countP_cons, hku]
          rw [hc]
          omega
        · simp [upsertSub, if_neg hk, countUid, List.countP_cons, hru] at ih ⊢
          omega

theorem lookup_of_mem_fst (u : String) (l : List (String × SubmissionModel))
    (h : u ∈ l.map Prod.fst) : ∃ r, lookupUid u l = some r := by
  induction l with
  | nil => simp at h
  | cons p rest ih =>
      obtain ⟨k, r⟩ := p
      by_cases hk : k = u
      · exact ⟨r, by simp [lookupUid, hk]⟩
      · simp only [List.map_cons] at h
        rcases List.mem_cons.mp h with h1 | h2
        · exact absurd h1.symm hk
        · obtain ⟨r', hr'⟩ := ih h2
          exact ⟨r', by simp [lookupUid, hk, hr']⟩

theorem mem_fst_of_lookup (u : String) (l : List (String × SubmissionModel))
    (r : SubmissionModel) (h : lookupUid u l = some r) : u ∈ l.map Prod.fst := by
  induction l with
  | nil => simp [lookupUid] at h
  | cons p rest ih =>
      obtain ⟨k, r'⟩ := p
      by_cases hk : k = u
      · simp [hk]
      · simp only [lookupUid, if_neg hk] at h
        simp [ih h]

theorem lookup_some_upsert (row : SubmissionModel)
    (l : List (String × SubmissionModel)) (u : String)
    (h : ∃ r, lookupUid u l = some r) :
    ∃ r', lookupUid u (upsertSub row l) = some r' := by
  rw [lookupUid_upsert]
  by_cases hu : row.uid = u
  · exact ⟨row, by simp [hu]⟩
  · simpa [hu] using h

theorem recsFor_append (u : String) (a b : List (String × ScanRecord)) :
    recsFor u (a ++ b) = recsFor u a ++ recsFor u b := by
  simp [recsFor, List.filter_append]

theorem recsFor_self_map (u : String) (rs : List ScanRecord) :
    recsFor u (rs.map (fun r => (u, r))) = rs := by
  induction rs with
  | nil => rfl
  | cons r rest ih => simpa [recsFor] using ih

theorem mem_insertUid (u : String) (l : List String) : u ∈ insertUid u l := by
  unfold insertUid
  by_cases h : u ∈ l <;> simp [h]

theorem mem_insertUid_elim (u v : String) (l : List String)
    (h : u ∈ insertUid v l) : u = v ∨ u ∈ l := by
  unfold insertUid at h
  by_cases hv : v ∈ l
  · simp [hv] at h
    exact Or.inr h
  · simp [hv] at h
    exact h

theorem processedSub_uid (fetch : String → Except FetchErr Bundle) (now : Nat)
    (ev : Submission) : (processedSub fetch now ev).uid = ev.uid := by
  unfold processedSub
  by_cases h : ev.cid ≠ ""
  · simp only [if_pos h]
    cases fetch ev.cid <;> rfl
  · simp only [if_neg h]

theorem terminal_processedSub (fetch : String → Except FetchErr Bundle)
    (now : Nat) (ev : Submission) :
    terminalStatus (processedSub fetch now ev).status := by
  unfold processedSub
  by_cases h : ev.cid ≠ ""
  · simp only [if_pos h]
    cases fetch ev.cid with
    | ok b => simp [terminalStatus]
    | error e => simp [terminalStatus]
  · simp only [if_neg h]
    simp [terminalStatus]

theorem toModel_uid (s : Submission) : (toModel s).uid = s.uid := rfl

theorem toModel_status (s : Submission) : (toModel s).status = s.status := rfl

theorem storeAfterSaves_subs (fetch : String → Except FetchErr Bundle)
    (now : Nat) (st : Store) (ev : Submission) :
    (storeAfterSaves fetch now st ev).subs =
      upsertSub (toModel (processedSub fetch now ev))
        (upsertSub (toModel { ev with status := "processing" }) st.subs) := by
  by_cases hc : (processedSub fetch now ev).status = "completed" <;>
    simp [storeAfterSaves, save_records, save_submission, hc]

theorem storeAfterSaves_recs (fetch : String → Except FetchErr Bundle)
    (now : Nat) (st : Store) (ev : Submission) :
    (storeAfterSaves fetch now st ev).recs =
      if (processedSub fetch now ev).status = "completed" then
        st.recs ++ (processedSub fetch now ev).records.map
          (fun r => ((processedSub fetch now ev).uid, r))
      else st.recs := by
  by_cases hc : (processedSub fetch now ev).status = "completed" <;>
    simp [storeAfterSaves, save_records, save_submission, hc]

theorem storeAfterSaves_state (fetch : String → Except FetchErr Bundle)
    (now : Nat) (st : Store) (ev : Submission) :
    (storeAfterSaves fetch now st ev).state = st.state := by
  by_cases hc : (processedSub fetch now ev).status = "completed" <;>
    simp [storeAfterSaves, save_records, save_submission, hc]

theorem handle_submission_skip (fetch : String → Except FetchErr Bundle)
    (now : Nat) (s : SvcState) (ev : Submission)
    (hm : ev.uid ∈ s.processedUids) :
    handle_submission fetch now s ev = s := by
  unfold handle_submission
  rw [if_pos hm]

theorem handle_submission_subs (fetch : String → Except FetchErr Bundle)
    (now : Nat) (s : SvcState) (ev : Submission)
    (hm : ev.uid ∉ s.processedUids) :
    (handle_submission fetch now s ev).store.subs =
      upsertSub (toModel (processedSub fetch now ev))
        (upsertSub (toModel { ev with status := "processing" }) s.store.subs) := by
  unfold handle_submission
  rw [if_neg hm]
  exact storeAfterSaves_subs fetch now s.store ev

theorem handle_submission_recs (fetch : String → Except FetchErr Bundle)
    (now : Nat) (s : SvcState) (ev : Submission)
    (hm : ev.uid ∉ s.processedUids) :
    (handle_submission fetch now s ev).store.recs =
      if (processedSub fetch now ev).status = "completed" then
        s.store.recs ++ (processedSub fetch now ev).records.map
          (fun r => ((processedSub fetch now ev).uid, r))
      else s.store.recs := by
  unfold handle_submission
  rw [if_neg hm]
  exact storeAfterSaves_recs fetch now s.store ev

theorem handle_submission_uids (fetch : String → Except FetchErr Bundle)
    (now : Nat) (s : SvcState) (ev : Submission)
    (hm : ev.uid ∉ s.processedUids) :
    (handle_submission fetch now s ev).processedUids =
      insertUid ev.uid s.processedUids := by
  unfold handle_submission
  rw [if_neg hm]
  rfl

theorem handle_submission_mem_uid (fetch : String → Except FetchErr Bundle)
    (now : Nat) (s : SvcState) (ev : Submission) :
    ev.uid ∈ (handle_submission fetch now s ev).processedUids := by
  by_cases hm : ev.uid ∈ s.processedUids
  · rw [handle_submission_skip fetch now s ev hm]
    exact hm
  · rw [handle_submission_uids fetch now s ev hm]
    exact mem_insertUid ev.uid s.processedUids

theorem handleAt_afterRecords_subs (fetch : String → Except FetchErr Bundle)
    (now : Nat) (s : SvcState) (ev : Submission)
    (hm : ev.uid ∉ s.processedUids) :
    (handleAt fetch now CrashPoint.afterRecords s ev).store.subs =
      upsertSub (toModel { ev with status := "processing" }) s.store.subs := by
  unfold handleAt
  rw [if_neg hm]
  by_cases hc : (processedSub fetch now ev).status = "completed" <;>
    simp [hc, save_records, save_submission]

theorem handleAt_afterSave2_eq (fetch : String → Except FetchErr Bundle)
    (now : Nat) (s : SvcState) (ev : Submission)
    (hm : ev.uid ∉ s.processedUids) :
    handleAt fetch now CrashPoint.afterSave2 s ev =
      { s with store := storeAfterSaves fetch now s.store ev } := by
  unfold handleAt
  rw [if_neg hm]

theorem handleAt_complete_eq (fetch : String → Except FetchErr Bundle)
    (now : Nat) (s : SvcState) (ev : Submission) :
    handleAt fetch now CrashPoint.complete s ev =
      handle_submission fetch now s ev := by
  unfold handleAt
  by_cases hm : ev.uid ∈ s.processedUids
  · rw [if_pos hm, handle_submission_skip fetch now s ev hm]
  · rw [if_neg hm]

theorem inv_empty : SvcInv initSvc := by
  constructor
  · intro u r h
    simp [initSvc, emptyStore, lookupUid] at h
  · intro u h
    simp [initSvc] at h

theorem lookup_handled_row (fetch : String → Except FetchErr Bundle)
    (now : Nat) (s : SvcState) (ev : Submission) (u : String)
    (r : SubmissionModel)
    (hl : lookupUid u (upsertSub (toModel (processedSub fetch now ev))
      (upsertSub (toModel { ev with status := "processing" }) s.store.subs)) = some r)
    (hinv : SvcInv s) : terminalStatus r.status := by
  rw [lookupUid_upsert, lookupUid_upsert] at hl
  by_cases h2 : (toModel (processedSub fetch now ev)).uid = u
  · rw [if_pos h2] at hl
    have hr : r = toModel (processedSub fetch now ev) := by
      injection hl with h
      exact h.symm
    rw [hr, toModel_status]
    exact terminal_processedSub fetch now ev
  · rw [if_neg h2] at hl
    by_cases h1 : (toModel { ev with status := "processing" }).uid = u
    · have h1' : ev.uid = u := h1
      exact absurd (((toModel_uid _).trans (processedSub_uid fetch now ev)).trans h1') h2
    · rw [if_neg h1] at hl
      exact hinv.1 u r hl

theorem inv_applyStep (fetch : String → Except FetchErr Bundle) (now : Nat)
    (s : SvcState) (stp : Step) (hinv : SvcInv s) (hok : allowedStep stp) :
    SvcInv (applyStep fetch now s stp) := by
  cases stp with
  | restart =>
      exact ⟨hinv.1, fun u hu => lookup_of_mem_fst u s.store.subs hu⟩
  | deliver ev cp =>
      show SvcInv (handleAt fetch now cp s ev)
      by_cases hm : ev.uid ∈ s.processedUids
      · unfold handleAt
        rw [if_pos hm]
        exact hinv
      · cases cp with
        | beforeSave1 =>
            unfold handleAt
            rw [if_neg hm]
            exact hinv
        | afterSave1 => exact absurd rfl hok.1
        | afterRecords => exact absurd rfl hok.2
        | afterSave2 =>
            rw [handleAt_afterSave2_eq fetch now s ev hm]
            constructor
            · intro u r hl
              have hl' : lookupUid u
                  (upsertSub (toModel (processedSub fetch now ev))
                    (upsertSub (toModel { ev with status := "processing" })
                      s.store.subs)) = some r := by
                rw [← storeAfterSaves_subs fetch now s.store ev]
                exact hl
              exact lookup_handled_row fetch now s ev u r hl' hinv
            · intro u hu
              show ∃ r', lookupUid u (storeAfterSaves fetch now s.store ev).subs = some r'
              rw [storeAfterSaves_subs]
              exact lookup_some_upsert _ _ _ (lookup_some_upsert _ _ _ (hinv.2 u hu))
        | complete =>
            rw [handleAt_complete_eq fetch now s ev]
            constructor
            · intro u r hl
              have hl' : lookupUid u
                  (upsertSub (toModel (processedSub fetch now ev))
                    (upsertSub (toModel { ev with status := "processing" })
                      s.store.subs)) = some r := by
                rw [← handle_submission_subs fetch now s ev hm]
                exact hl
              exact lookup_handled_row fetch now s ev u r hl' hinv
            · intro u hu
              have hu' : u ∈ insertUid ev.uid s.processedUids := by
                rw [← handle_submission_uids fetch now s ev hm]
                exact hu
              show ∃ r', lookupUid u (handle_submission fetch now s ev).store.subs = some r'
              rw [handle_submission_subs fetch now s ev hm]
              rcases mem_insertUid_elim u ev.uid s.processedUids hu' with h | h
              · refine ⟨toModel (processedSub fetch now ev), ?_⟩
                rw [lookupUid_upsert, if_pos]
                rw [toModel_uid, processedSub_uid, h]
              · exact lookup_some_upsert _ _ _ (lookup_some_upsert _ _ _ (hinv.2 u h))

theorem presence_applyStep (fetch : String → Except FetchErr Bundle)
    (now : Nat) (s : SvcState) (stp : Step) (u : String)
    (h : ∃ r, lookupUid u s.store.subs = some r) :
    ∃ r', lookupUid u (applyStep fetch now s stp).store.subs = some r' := by
  cases stp with
  | restart => exact h
  | deliver ev cp =>
      show ∃ r', lookupUid u (handleAt fetch now cp s ev).store.subs = some r'
      by_cases hm : ev.uid ∈ s.processedUids
      · unfold handleAt
        rw [if_pos hm]
        exact h
      · cases cp with
        | beforeSave1 =>
            unfold handleAt
            rw [if_neg hm]
            exact h
        | afterSave1 =>
            unfold handleAt
            rw [if_neg hm]
            exact lookup_some_upsert _ _ _ h
        | afterRecords =>
            have he := handleAt_afterRecords_subs fetch now s ev hm
            rw [he]
            exact lookup_some_upsert _ _ _ h
        | afterSave2 =>
            rw [handleAt_afterSave2_eq fetch now s ev hm]
            show ∃ r', lookupUid u (storeAfterSaves fetch now s.store ev).subs = some r'
            rw [storeAfterSaves_subs]
            exact lookup_some_upsert _ _ _ (lookup_some_upsert _ _ _ h)
        | complete =>
            rw [handleAt_complete_eq fetch now s ev]
            rw [handle_submission_subs fetch now s ev hm]
            exact lookup_some_upsert _ _ _ (lookup_some_upsert _ _ _ h)

theorem inv_runSteps (fetch : String → Except FetchErr Bundle) (now : Nat) :
    ∀ (steps : List Step) (s : SvcState), SvcInv s →
      (∀ stp ∈ steps, allowedStep stp) →
      SvcInv (runSteps fetch now s steps) := by
  intro steps
  induction steps with
  | nil => exact fun s hinv _ => hinv
  | cons stp rest ih =>
      intro s hinv hall
      exact ih (applyStep fetch now s stp)
        (inv_applyStep fetch now s stp hinv (hall stp (List.mem_cons_self stp rest)))
        (fun q hq => hall q (List.mem_cons_of_mem stp hq))

theorem presence_runSteps (fetch : String → Except FetchErr Bundle) (now : Nat)
    (u : String) :
    ∀ (steps : List Step) (s : SvcState),
      (∃ r, lookupUid u s.store.subs = some r) →
      ∃ r', lookupUid u (runSteps fetch now s steps).store.subs = some r' := by
  intro steps
  induction steps with
  | nil => exact fun s h => h
  | cons stp rest ih =>
      intro s h
      exact ih (applyStep fetch now s stp) (presence_applyStep fetch now s stp u h)

theorem complete_creates_row (fetch : String → Except FetchErr Bundle)
    (now : Nat) (s : SvcState) (ev : Submission) (hinv : SvcInv s) :
    ∃ r, lookupUid ev.uid
      (handleAt fetch now CrashPoint.complete s ev).store.subs = some r := by
  rw [handleAt_complete_eq fetch now s ev]
  by_cases hm : ev.uid ∈ s.processedUids
  · rw [handle_submission_skip fetch now s ev hm]
    exact hinv.2 ev.uid hm
  · rw [handle_submission_subs fetch now s ev hm]
    refine ⟨toModel (processedSub fetch now ev), ?_⟩
    rw [lookupUid_upsert, if_pos]
    rw [toModel_uid, processedSub_uid]

theorem row_after_run (fetch : String → Except FetchErr Bundle) (now : Nat) :
    ∀ (steps : List Step) (s : SvcState), SvcInv s →
      (∀ stp ∈ steps, allowedStep stp) →
      ∀ ev : Submission, Step.deliver ev CrashPoint.complete ∈ steps →
        ∃ r, lookupUid ev.uid (runSteps fetch now s steps).store.subs = some r := by
  intro steps
  induction steps with
  | nil =>
      intro s _ _ ev hev
      simp at hev
  | cons stp rest ih =>
      intro s hinv hall ev hev
      rcases List.mem_cons.mp hev with heq | hmem
      · have hrow : ∃ r, lookupUid ev.uid
            (applyStep fetch now s stp).store.subs = some r := by
          rw [← heq]
          exact complete_creates_row fetch now s ev hinv
        exact presence_runSteps fetch now ev.uid rest (applyStep fetch now s stp) hrow
      · exact ih (applyStep fetch now s stp)
          (inv_applyStep fetch now s stp hinv (hall stp (List.mem_cons_self stp rest)))
          (fun q hq => hall q (List.mem_cons_of_mem stp hq)) ev hmem

/- ---------------------------------------------------------------------
   Claim theorems.
--------------------------------------------------------------------- -/

/-- Claim C1, counterexample.  The no-loss-across-restart property fails
as stated: deliver an event, crash right after the "processing" row was
persisted (`afterSave1`), restart (which reloads the deduplication set
from ALL stored uids), then redeliver the same event to completion with
no interruption -- the pipeline has fully drained, yet the submission
row is still in the non-terminal status "processing", because the
reloaded deduplication set makes the redelivery a no-op. -/
theorem C1_counterexample :
    (lookupUid "0xc1" (runSteps fetchDown 0 initSvc
        [Step.deliver cexSubC1 CrashPoint.afterSave1, Step.restart,
         Step.deliver cexSubC1 CrashPoint.complete]).store.subs).map
      SubmissionModel.status = some "processing"
    ∧ ¬ terminalStatus "processing" := by
  constructor
  · decide
  · unfold terminalStatus
    decide

/-- Claim C1, amended: if no scan/process cycle is interrupted in the
window between the initial "processing" persistence and the final
terminal persistence (crashes before the first save or after the final
save remain allowed), then, starting from an empty store, every
submission row ever visible in the store is terminal ("completed" or
"failed"), and every event whose delivery ran to completion -- in
particular every event at or below the final checkpoint once the
pipeline has drained -- has a submission row with terminal status. -/
theorem C1_no_loss_amended (fetch : String → Except FetchErr Bundle)
    (now : Nat) (steps : List Step)
    (hsteps : ∀ (ev : Submission) (cp : CrashPoint),
      Step.deliver ev cp ∈ steps →
      cp ≠ CrashPoint.afterSave1 ∧ cp ≠ CrashPoint.afterRecords) :
    (∀ u r, lookupUid u (runSteps fetch now initSvc steps).store.subs = some r →
      terminalStatus r.status)
    ∧ (∀ ev : Submission, Step.deliver ev CrashPoint.complete ∈ steps →
      ∃ r, lookupUid ev.uid (runSteps fetch now initSvc steps).store.subs = some r
        ∧ terminalStatus r.status) := by
  have hall : ∀ stp ∈ steps, allowedStep stp := by
    intro stp hstp
    cases stp with
    | deliver ev cp => exact hsteps ev cp hstp
    | restart => trivial
  have hinv := inv_runSteps fetch now steps initSvc inv_empty hall
  refine ⟨hinv.1, ?_⟩
  intro ev hev
  obtain ⟨r, hr⟩ := row_after_run fetch now steps initSvc inv_empty hall ev hev
  exact ⟨r, hr, hinv.1 ev.uid r hr⟩

/-- Claim C1 witness: a concrete uninterrupted drain -- one complete
delivery of an event whose bundle fetch fails -- leaves the event's row
present and terminal. -/
theorem C1_no_loss_amended_witness :
    ∃ r, lookupUid "0xw1" (runSteps fetchDown 0 initSvc
        [Step.deliver wSubC1 CrashPoint.complete]).store.subs = some r
      ∧ terminalStatus r.status := by
  have h := (C1_no_loss_amended fetchDown 0
      [Step.deliver wSubC1 CrashPoint.complete]
      (by
        intro ev cp hev
        rw [List.mem_singleton] at hev
        injection hev with h1 h2
        subst h2
        exact ⟨by decide, by decide⟩)).2 wSubC1 (List.mem_singleton.mpr rfl)
  exact h

/-- Claim C2: redelivering an attestation event whose first delivery
completed is a no-op (the handler returns the state unchanged), and the
store then holds exactly one submission row for the identifier and
exactly one record set (the fetched records when the bundle completed,
none otherwise). -/
theorem C2_idempotent_redelivery (fetch : String → Except FetchErr Bundle)
    (now : Nat) (s : SvcState) (ev : Submission)
    (h1 : ev.uid ∉ s.processedUids)
    (h2 : lookupUid ev.uid s.store.subs = none)
    (h3 : recsFor ev.uid s.store.recs = []) :
    handle_submission fetch now (handle_submission fetch now s ev) ev
      = handle_submission fetch now s ev
    ∧ countUid ev.uid (handle_submission fetch now s ev).store.subs = 1
    ∧ recsFor ev.uid (handle_submission fetch now s ev).store.recs
        = (if (processedSub fetch now ev).status = "completed"
           then (processedSub fetch now ev).records else []) := by
  refine ⟨?_, ?_, ?_⟩
  · exact handle_submission_skip fetch now _ ev
      (handle_submission_mem_uid fetch now s ev)
  · have hcount1 : countUid ev.uid
        (upsertSub (toModel { ev with status := "processing" }) s.store.subs) = 1 := by
      rw [countUid_upsert, countUid_zero_of_lookup_none ev.uid s.store.subs h2]
      simp [toModel]
    rw [handle_submission_subs fetch now s ev h1, countUid_upsert, hcount1]
    have e2 : (toModel (processedSub fetch now ev)).uid = ev.uid :=
      (toModel_uid _).trans (processedSub_uid fetch now ev)
    simp [e2]
  · rw [handle_submission_recs fetch now s ev h1]
    by_cases hc : (processedSub fetch now ev).status = "completed"
    · rw [if_pos hc, if_pos hc, recsFor_append, h3,
        processedSub_uid fetch now ev, recsFor_self_map]
      simp
    · rw [if_neg hc, if_neg hc, h3]

/-- Claim C2 witness: a concrete successful single-record delivery. -/
theorem C2_idempotent_redelivery_witness :
    handle_submission fetchOkC2 7 (handle_submission fetchOkC2 7 initSvc wSubC2) wSubC2
      = handle_submission fetchOkC2 7 initSvc wSubC2
    ∧ countUid "0xw2" (handle_submission fetchOkC2 7 initSvc wSubC2).store.subs = 1
    ∧ recsFor "0xw2" (handle_submission fetchOkC2 7 initSvc wSubC2).store.recs
        = (if (processedSub fetchOkC2 7 wSubC2).status = "completed"
           then (processedSub fetchOkC2 7 wSubC2).records else []) :=
  C2_idempotent_redelivery fetchOkC2 7 initSvc wSubC2 (by decide) rfl rfl

/-- Claim C3, counterexample.  Persisting the same submission's records
twice does not replace the record set: `_save_records` appends a second
copy of every record (it never deletes prior rows for the identifier),
so "writes the record set at most once per identifier version" fails. -/
theorem C3_counterexample :
    recsFor "0xc3" (save_records (save_records emptyStore cexSubC3) cexSubC3).recs
      = [baseRec, baseRec]
    ∧ [baseRec, baseRec] ≠ [baseRec] := by
  constructor
  · rfl
  · decide

/-- Claim C3, amended: committing a submission twice under the same
identifier overwrites the prior submission row (upsert -- no error, no
duplicate row), but re-running the record write APPENDS a second copy
of the record set rather than replacing it; at-most-once record
persistence relies on the orchestrator's deduplication, not on the
persistence layer. -/
theorem C3_amended_upsert_append (st : Store) (sub sub' : Submission)
    (huid : sub'.uid = sub.uid)
    (h : lookupUid sub.uid st.subs = none) :
    lookupUid sub.uid (save_submission (save_submission st sub) sub').subs
      = some (toModel sub')
    ∧ countUid sub.uid (save_submission (save_submission st sub) sub').subs = 1
    ∧ (save_records (save_records st sub) sub).recs
        = st.recs ++ sub.records.map (fun r => (sub.uid, r))
            ++ sub.records.map (fun r => (sub.uid, r)) := by
  refine ⟨?_, ?_, rfl⟩
  · show lookupUid sub.uid
      (upsertSub (toModel sub') (upsertSub (toModel sub) st.subs)) = some (toModel sub')
    rw [lookupUid_upsert, if_pos ((toModel_uid sub').trans huid)]
  · show countUid sub.uid
      (upsertSub (toModel sub') (upsertSub (toModel sub) st.subs)) = 1
    have hc1 : countUid sub.uid (upsertSub (toModel sub) st.subs) = 1 := by
      rw [countUid_upsert, countUid_zero_of_lookup_none _ _ h]
      simp [toModel]
    rw [countUid_upsert, hc1]
    simp [(toModel_uid sub').trans huid]

/-- Claim C3 witness: concrete double commit of a one-record submission. -/
theorem C3_amended_witness :
    lookupUid "0xw3" (save_submission (save_submission emptyStore wSubC3) wSubC3).subs
      = some (toModel wSubC3)
    ∧ countUid "0xw3" (save_submission (save_submission emptyStore wSubC3) wSubC3).subs = 1
    ∧ (save_records (save_records emptyStore wSubC3) wSubC3).recs
        = emptyStore.recs ++ [baseRec].map (fun r => ("0xw3", r))
            ++ [baseRec].map (fun r => ("0xw3", r)) :=
  C3_amended_upsert_append emptyStore wSubC3 wSubC3 rfl rfl

/-- Claim C4: when the manifest declares a (nonempty) expected integrity
root and the recomputed digest of the fetched scanprint stream differs,
`fetch_bundle` fails with the named merkle-mismatch error (a constructor
distinct from transport failures), the handler lands the submission in
status "failed" with that error text (which mentions "mismatch"), and
no scan records are persisted. -/
theorem C4_integrity_mismatch (env : IpfsEnv) (now : Nat) (s : SvcState)
    (ev : Submission) (n : Nat) (m : BundleManifest) (root : String)
    (d : List Char) (recs : List ScanRecord)
    (hstat : env.statNumLinks = .ok n) (hn : n ≠ 0)
    (hman : env.manifestDoc = .ok m)
    (hroot : m.scanprint.merkleRoot = some root) (hr : root ≠ "")
    (hcat : env.catPath m.scanprint.path = .ok d)
    (hparse : parseJsonl env.parseRec (splitNl (pyStrip d)) = .ok recs)
    (hne : root ≠ compute_scanprint_merkle_root d)
    (hcid : ev.cid ≠ "") (hmem : ev.uid ∉ s.processedUids) :
    fetch_bundle env
      = .error (.merkleMismatch root (compute_scanprint_merkle_root d))
    ∧ (∀ e, FetchErr.merkleMismatch root (compute_scanprint_merkle_root d)
        ≠ FetchErr.transport e)
    ∧ (∃ row, lookupUid ev.uid
        (handle_submission (fun _ => fetch_bundle env) now s ev).store.subs = some row
        ∧ row.status = "failed"
        ∧ row.error_message = some (renderFetchErr
            (.merkleMismatch root (compute_scanprint_merkle_root d))))
    ∧ (handle_submission (fun _ => fetch_bundle env) now s ev).store.recs
        = s.store.recs
    ∧ (∃ x y, renderFetchErr
        (FetchErr.merkleMismatch root (compute_scanprint_merkle_root d))
        = x ++ "mismatch" ++ y) := by
  have hfb : fetch_bundle env
      = .error (.merkleMismatch root (compute_scanprint_merkle_root d)) := by
    simp only [fetch_bundle, hstat, hman, hcat, hparse, hroot, Option.getD_some]
    simp [hn, hr, hne]
  have hps : processedSub (fun _ => fetch_bundle env) now ev
      = { ev with status := "failed"
                  error_message := some (renderFetchErr
                    (FetchErr.merkleMismatch root
                      (compute_scanprint_merkle_root d))) } := by
    unfold processedSub
    rw [if_pos hcid]
    simp only [hfb]
  refine ⟨hfb, fun e h => FetchErr.noConfusion h, ?_, ?_, ?_⟩
  · refine ⟨toModel (processedSub (fun _ => fetch_bundle env) now ev), ?_, ?_, ?_⟩
    · rw [handle_submission_subs (fun _ => fetch_bundle env) now s ev hmem,
        lookupUid_upsert,
        if_pos ((toModel_uid _).trans (processedSub_uid (fun _ => fetch_bundle env) now ev))]
    · rw [toModel_status, hps]
    · show (processedSub (fun _ => fetch_bundle env) now ev).error_message = _
      rw [hps]
  · rw [handle_submission_recs (fun _ => fetch_bundle env) now s ev hmem, hps]
    simp
  · refine ⟨"Merkle root ", ": expected " ++ (root ++ (", got "
      ++ compute_scanprint_merkle_root d)), ?_⟩
    show "Merkle root mismatch: expected " ++ root ++ ", got "
        ++ compute_scanprint_merkle_root d
      = "Merkle root " ++ "mismatch"
        ++ (": expected " ++ (root ++ (", got " ++ compute_scanprint_merkle_root d)))
    calc "Merkle root mismatch: expected " ++ root ++ ", got "
          ++ compute_scanprint_merkle_root d
        = "Merkle root mismatch: expected "
            ++ (root ++ (", got " ++ compute_scanprint_merkle_root d)) := by
          rw [String.append_assoc, String.append_assoc]
      _ = (("Merkle root " ++ "mismatch") ++ ": expected ")
            ++ (root ++ (", got " ++ compute_scanprint_merkle_root d)) := rfl
      _ = ("Merkle root " ++ "mismatch")
            ++ (": expected " ++ (root ++ (", got "
              ++ compute_scanprint_merkle_root d))) := String.append_assoc _ _ _

/-- Claim C4 witness: a concrete bundle whose manifest attests "0xdead"
over an empty scanprint stream (recomputed digest ""). -/
theorem C4_integrity_mismatch_witness :
    fetch_bundle wEnvC4 = .error (.merkleMismatch "0xdead"
      (compute_scanprint_merkle_root []))
    ∧ (∃ row, lookupUid "0xw4"
        (handle_submission (fun _ => fetch_bundle wEnvC4) 0 initSvc wSubC4).store.subs
          = some row
        ∧ row.status = "failed"
        ∧ row.error_message = some (renderFetchErr
            (.merkleMismatch "0xdead" (compute_scanprint_merkle_root [])))) :=
  ⟨(C4_integrity_mismatch wEnvC4 0 initSvc wSubC4 2 wManifestC4 "0xdead" [] []
      rfl (by decide) rfl rfl (by decide) rfl rfl (by decide) (by decide) (by decide)).1,
   (C4_integrity_mismatch wEnvC4 0 initSvc wSubC4 2 wManifestC4 "0xdead" [] []
      rfl (by decide) rfl rfl (by decide) rfl rfl (by decide) (by decide) (by decide)).2.2.1⟩

/-- Claim C5, counterexample.  Changing exactly one byte of the record
stream (its leading ' ' to '\t') does NOT change the recomputed digest:
the digest is taken after whitespace canonicalization, so the claim "the
recomputed integrity digest of s' differs from that of s" is false. -/
theorem C5_counterexample :
    ([' ', 'a'] : List Char) ≠ ['\t', 'a']
    ∧ List.length ([' ', 'a'] : List Char) = List.length ['\t', 'a']
    ∧ (List.zip ([' ', 'a'] : List Char) ['\t', 'a']).countP
        (fun p => p.1 ≠ p.2) = 1
    ∧ compute_scanprint_merkle_root [' ', 'a']
        = compute_scanprint_merkle_root ['\t', 'a'] := by
  refine ⟨by decide, rfl, by decide, ?_⟩
  decide

/-- Claim C5, amended: the digest is recomputed over the canonicalized
stream (stripped of surrounding whitespace per line, blank lines
dropped, newline-joined), so single-byte tampering is detected at most
when it changes that canonical form; a whole family of single-byte
changes -- altering a leading whitespace byte -- always leaves the
digest identical. -/
theorem C5_whitespace_tamper_undetected (s : List Char) :
    compute_scanprint_merkle_root (' ' :: s)
      = compute_scanprint_merkle_root ('\t' :: s) := by
  have h : pyStrip (' ' :: s) = pyStrip ('\t' :: s) := by
    show stripRightL (stripLeftL (' ' :: s)) = stripRightL (stripLeftL ('\t' :: s))
    rw [show stripLeftL (' ' :: s) = stripLeftL s from rfl,
        show stripLeftL ('\t' :: s) = stripLeftL s from rfl]
  unfold compute_scanprint_merkle_root
  rw [h]

/-- Claim C6 (code bug): the checkpoint row is never created or updated
by the handler at all.  `update_state` always raises -- AsyncSession has
no `.query` attribute, so `get_or_create_state` (database.py:147) raises
AttributeError, swallowed by the blanket except at indexer.py:177 (and
even the intended path would commit a session holding no changes) -- so
the claim's "last position, last identifier, and cumulative counters are
updated" never happens: the state row of every store is left exactly as
it was, shown here in general and on a concrete fully persisted (failed)
submission whose pre-existing checkpoint row stays byte-identical. -/
theorem C6_checkpoint_never_updated :
    (∀ (fetch : String → Except FetchErr Bundle) (now : Nat) (s : SvcState)
      (ev : Submission),
      (handle_submission fetch now s ev).store.state = s.store.state)
    ∧ (handle_submission fetchDown 5 cexSvcC6 cexSubC6).store.state
        = some { last_block := 7 }
    ∧ (lookupUid "0xc6" (handle_submission fetchDown 5 cexSvcC6 cexSubC6).store.subs).map
        SubmissionModel.status = some "failed" := by
  refine ⟨?_, by decide, by decide⟩
  intro fetch now s ev
  by_cases hm : ev.uid ∈ s.processedUids
  · rw [handle_submission_skip fetch now s ev hm]
  · unfold handle_submission
    rw [if_neg hm]
    show (storeAfterSaves fetch now s.store ev).state = s.store.state
    exact storeAfterSaves_state fetch now s.store ev

/-- Claim C7, counterexample.  A retrieval error that is NOT the
not-found/out-of-range error is not propagated to the caller: the
scanner swallows it and returns an empty result. -/
theorem C7_counterexample :
    get_events_in_range (Except.error (RangeErr.other "connection reset"))
      (Except.ok []) = Except.ok []
    ∧ get_events_in_range (Except.error (RangeErr.other "connection reset"))
      (Except.ok []) ≠ Except.error (RangeErr.other "connection reset") :=
  ⟨rfl, fun h => Except.noConfusion h⟩

/-- Claim C7, amended: on a not-found/out-of-range error the scanner
returns an empty result, and on EVERY other retrieval error from either
retrieval path it also returns an empty result -- no retrieval error is
ever propagated to the caller. -/
theorem C7_swallows_all_errors :
    (∀ (e : RangeErr) (res : Except RangeErr (List RawEvent)),
      get_events_in_range (Except.error e) res = Except.ok [])
    ∧ (∀ (evs : List RawEvent) (e : RangeErr),
      get_events_in_range (Except.ok evs) (Except.error e) = Except.ok []) := by
  constructor
  · intro e res
    cases e <;> rfl
  · intro evs e
    cases e <;> rfl

/-- Claim C8: an iteration that scans (start ≤ head) advances the cursor
to exactly min(start + window, head + 1); the cursor never decreases,
never passes head + 1, and equals one past the highest position
actually scanned -- the scanned window itself never passes the
confirmed head. -/
theorem C8_cursor_advance (start batch latest : Nat)
    (h : start ≤ latest) (hb : 1 ≤ batch) :
    watchCursorStep start batch latest = min (start + batch) (latest + 1)
    ∧ start ≤ watchCursorStep start batch latest
    ∧ watchCursorStep start batch latest ≤ latest + 1
    ∧ watchCursorStep start batch latest = scanWindowUpper start batch latest + 1
    ∧ scanWindowUpper start batch latest ≤ latest
    ∧ (∀ c l, c ≤ watchCursorStep c batch l) := by
  refine ⟨?_, ?_, ?_, ?_, ?_, ?_⟩
  · unfold watchCursorStep
    rw [if_pos h]
  · unfold watchCursorStep
    rw [if_pos h]
    omega
  · unfold watchCursorStep
    rw [if_pos h]
    omega
  · unfold watchCursorStep scanWindowUpper
    rw [if_pos h]
    omega
  · unfold scanWindowUpper
    omega
  · intro c l
    unfold watchCursorStep
    split <;> omega

/-- Claim C8 witness: a concrete iteration at start 0, window 100,
head 10. -/
theorem C8_cursor_advance_witness :
    0 ≤ 10 ∧ watchCursorStep 0 100 10 = min (0 + 100) (10 + 1) :=
  ⟨by decide, (C8_cursor_advance 0 100 10 (by decide) (by decide)).1⟩

/-- Claim C9 (code bug): `get_stats` never reflects the durable state.
It references `func` without importing it (indexer.py line 6 imports
only `select`), the resulting NameError is swallowed by the blanket
except, and the empty dict is returned for EVERY store state -- even
one whose intended statistics are plainly non-empty. -/
theorem C9_stats_always_empty :
    (∀ st : Store, get_stats st = none)
    ∧ statsOf cexStoreC9
        = { submissions := [("completed", 1)], total_records := 2, last_block := 12,
            processed_count := 1, error_count := 0, last_updated := some 99 }
    ∧ get_stats cexStoreC9 = none := by
  refine ⟨fun st => rfl, by decide, rfl⟩

/-- Claim C10: the startup deduplication set is the set of ALL stored
submission identifiers, regardless of status, so any redelivered event
whose identifier already has a row -- whatever that row's status -- is
skipped as a no-op and never re-processed or resumed. -/
theorem C10_dedup_all_statuses (fetch : String → Except FetchErr Bundle)
    (now : Nat) (st : Store) (ev : Submission) (row : SubmissionModel)
    (h : lookupUid ev.uid st.subs = some row) :
    ev.uid ∈ load_processed_uids st
    ∧ handle_submission fetch now
        { store := st, processedUids := load_processed_uids st } ev
      = { store := st, processedUids := load_processed_uids st } := by
  have hm : ev.uid ∈ load_processed_uids st :=
    mem_fst_of_lookup ev.uid st.subs row h
  exact ⟨hm, handle_submission_skip fetch now _ ev hm⟩

/-- Claim C10 witness: a store whose only row is stranded in status
"processing" still causes the redelivered event to be skipped. -/
theorem C10_dedup_all_statuses_witness :
    "0xaa" ∈ load_processed_uids cexStoreC10
    ∧ handle_submission fetchDown 0
        { store := cexStoreC10, processedUids := load_processed_uids cexStoreC10 }
        cexSubC10
      = { store := cexStoreC10, processedUids := load_processed_uids cexStoreC10 } :=
  C10_dedup_all_statuses fetchDown 0 cexStoreC10 cexSubC10 cexRowC10 rfl
